import Mathlib

/-!
Shallow embedding of the Vulkan-Basic repository (src/VulkanBasic/main.cpp and
src/VulkanBasic/deleter.h) and proofs about its swap-chain configuration helpers,
its RAII handle wrapper, and its per-frame protocol.

Machine integers are modelled as `Nat` / `Int`; Vulkan enum values are embedded
with their numeric values from the Vulkan headers. Handles are modelled as `Nat`
with `0` standing for `VK_NULL_HANDLE`.
-/

namespace VulkanBasic

/-! ### Vulkan constants (numeric values from the Vulkan headers) -/

def VK_SUCCESS : Int := 0

def VK_SUBOPTIMAL_KHR : Int := 1000001003

def VK_ERROR_OUT_OF_DATE_KHR : Int := -1000001004

def VK_ERROR_SURFACE_LOST_KHR : Int := -1000000000

def VK_FORMAT_UNDEFINED : Nat := 0

def VK_FORMAT_B8G8R8A8_UNORM : Nat := 44

def VK_COLOR_SPACE_SRGB_NONLINEAR_KHR : Nat := 0

def VK_PRESENT_MODE_IMMEDIATE_KHR : Nat := 0

def VK_PRESENT_MODE_MAILBOX_KHR : Nat := 1

def VK_PRESENT_MODE_FIFO_KHR : Nat := 2

def VK_PRESENT_MODE_FIFO_RELAXED_KHR : Nat := 3

/-- `std::numeric_limits<uint32_t>::max()`, the "any size" sentinel used in
`chooseSwapExtent` (main.cpp line 919). -/
def UINT32_MAX : Nat := 4294967295

/-- Window width `mWidth` (main.cpp line 2390). -/
def mWidth : Nat := 800

/-- Window height `mHeight` (main.cpp line 2391). -/
def mHeight : Nat := 600

/-! ### vk::Deleter (deleter.h)

The wrapper stores one handle `mObject` (0 = `VK_NULL_HANDLE`) and a destruction
function `mDeleter`. We track the observable effect of the destruction function
as a log `destroyed` of the handles it has been invoked on. -/

structure DeleterState where
  mObject : Nat
  destroyed : List Nat
deriving DecidableEq, Repr

/-- `vk::Deleter::cleanup` (deleter.h lines 66-73): if the handle is non-null the
destruction function is invoked on it; afterwards the handle is set to null. -/
def cleanup (s : DeleterState) : DeleterState :=
  if s.mObject ≠ 0 then { mObject := 0, destroyed := s.destroyed ++ [s.mObject] }
  else { mObject := 0, destroyed := s.destroyed }

/-- `vk::Deleter::operator&` (deleter.h lines 51-55) followed by the creation call
writing the freshly created handle through the returned pointer: `operator&` runs
`cleanup()` and hands out the address of `mObject`, into which the caller stores
`newObj`. -/
def bindHandle (s : DeleterState) (newObj : Nat) : DeleterState :=
  { cleanup s with mObject := newObj }

/-! ### createLogicalDevice queue setup (main.cpp lines 719-737) -/

structure VkDeviceQueueCreateInfo where
  queueFamilyIndex : Int
  queueCount : Nat
  queuePriority : Int
deriving DecidableEq, Repr

/-- `std::set<int> uniqueQueueFamilies = { indices.graphicsFamily, indices.presentFamily }`
(main.cpp line 722): a `std::set<int>` deduplicates and iterates in ascending order. -/
def uniqueQueueFamilies (graphicsFamily presentFamily : Int) : List Int :=
  if graphicsFamily = presentFamily then [graphicsFamily]
  else if graphicsFamily < presentFamily then [graphicsFamily, presentFamily]
  else [presentFamily, graphicsFamily]

/-- The loop of `createLogicalDevice` (main.cpp lines 724-737). Note that the
source sets `queueCreateInfo.queueFamilyIndex = indices.graphicsFamily` (line 731)
on every iteration, not the loop variable `queueFamily`; the embedding mirrors
this faithfully. `queuePriority` is the float `1.0f`, embedded as `1`. -/
def createQueueInfos (graphicsFamily presentFamily : Int) : List VkDeviceQueueCreateInfo :=
  (uniqueQueueFamilies graphicsFamily presentFamily).map
    (fun _queueFamily =>
      { queueFamilyIndex := graphicsFamily, queueCount := 1, queuePriority := 1 })

/-! ### Swap-chain configuration helpers (main.cpp lines 817-930, 969-974) -/

structure VkSurfaceFormatKHR where
  format : Nat
  colorSpace : Nat
deriving DecidableEq, Repr

instance : Inhabited VkSurfaceFormatKHR := ⟨⟨0, 0⟩⟩

/-- The fixed 32-bit BGRA/sRGB pair `{ VK_FORMAT_B8G8R8A8_UNORM,
VK_COLOR_SPACE_SRGB_NONLINEAR_KHR }` preferred by `chooseSwapSurfaceFormat`. -/
def preferredSurfaceFormat : VkSurfaceFormatKHR :=
  { format := VK_FORMAT_B8G8R8A8_UNORM, colorSpace := VK_COLOR_SPACE_SRGB_NONLINEAR_KHR }

/-- `BasicApp::chooseSwapSurfaceFormat` (main.cpp lines 817-863): if the list has
exactly one entry whose `format` is `VK_FORMAT_UNDEFINED`, return the fixed
BGRA/sRGB pair; otherwise return the first entry matching the preferred pair, and
failing that the first entry of the list. -/
def chooseSwapSurfaceFormat (availableFormats : List VkSurfaceFormatKHR) : VkSurfaceFormatKHR :=
  if availableFormats.length = 1 ∧ availableFormats.headI.format = VK_FORMAT_UNDEFINED then
    { format := VK_FORMAT_B8G8R8A8_UNORM, colorSpace := VK_COLOR_SPACE_SRGB_NONLINEAR_KHR }
  else
    match availableFormats.find? (fun f =>
        f.format == VK_FORMAT_B8G8R8A8_UNORM && f.colorSpace == VK_COLOR_SPACE_SRGB_NONLINEAR_KHR) with
    | some f => f
    | none => availableFormats.headI

/-- `BasicApp::chooseSwapPresentMode` (main.cpp lines 866-901): scan the list for
`VK_PRESENT_MODE_MAILBOX_KHR`; fall back to `VK_PRESENT_MODE_FIFO_KHR`. -/
def chooseSwapPresentMode (availablePresentModes : List Nat) : Nat :=
  match availablePresentModes.find? (fun m => m == VK_PRESENT_MODE_MAILBOX_KHR) with
  | some m => m
  | none => VK_PRESENT_MODE_FIFO_KHR

structure VkExtent2D where
  width : Nat
  height : Nat
deriving DecidableEq, Repr

structure VkSurfaceCapabilitiesKHR where
  minImageCount : Nat
  maxImageCount : Nat
  currentExtent : VkExtent2D
  minImageExtent : VkExtent2D
  maxImageExtent : VkExtent2D
deriving DecidableEq, Repr

/-- `BasicApp::chooseSwapExtent` (main.cpp lines 904-930): use `currentExtent`
verbatim unless its width is the `UINT32_MAX` sentinel, in which case the window
size (`mWidth` x `mHeight`) is clamped componentwise into
`[minImageExtent, maxImageExtent]` via `max(minE, min(maxE, actual))`. -/
def chooseSwapExtent (capabilities : VkSurfaceCapabilitiesKHR) : VkExtent2D :=
  if capabilities.currentExtent.width ≠ UINT32_MAX then
    capabilities.currentExtent
  else
    { width := Nat.max capabilities.minImageExtent.width
        (Nat.min capabilities.maxImageExtent.width mWidth),
      height := Nat.max capabilities.minImageExtent.height
        (Nat.min capabilities.maxImageExtent.height mHeight) }

/-- The image-count computation of `BasicApp::createSwapChain` (main.cpp lines
969-974): `minImageCount + 1`, then clamped to `maxImageCount` when that bound is
nonzero. -/
def requestedImageCount (minImageCount maxImageCount : Nat) : Nat :=
  if maxImageCount > 0 ∧ minImageCount + 1 > maxImageCount then maxImageCount
  else minImageCount + 1

/-! ### Image views and framebuffers (main.cpp lines 1047-1057 and 1551-1587) -/

structure ImageViewInfo where
  image : Nat
  format : Nat
deriving DecidableEq, Repr

/-- `BasicApp::createImageView` as invoked from `createImageViews`: a 2D color
view over the given image with the given format. -/
def createImageView (image : Nat) (format : Nat) : ImageViewInfo :=
  { image := image, format := format }

/-- `BasicApp::createImageViews` (main.cpp lines 1047-1057): one view per
swap-chain image, view `i` created from image `i`. -/
def createImageViews (swapChainImages : List Nat) (swapChainImageFormat : Nat) :
    List ImageViewInfo :=
  swapChainImages.map (fun img => createImageView img swapChainImageFormat)

structure VkFramebufferCreateInfo where
  renderPass : Nat
  attachment : ImageViewInfo
  width : Nat
  height : Nat
  layers : Nat
deriving DecidableEq, Repr

/-- `BasicApp::createFramebuffers` (main.cpp lines 1551-1587): one framebuffer
per image view, framebuffer `i` bound to view `i` as its single attachment, with
the swap-chain extent and one layer. -/
def createFramebuffers (swapChainImageViews : List ImageViewInfo) (renderPass : Nat)
    (swapChainExtent : VkExtent2D) : List VkFramebufferCreateInfo :=
  swapChainImageViews.map (fun v =>
    { renderPass := renderPass, attachment := v, width := swapChainExtent.width,
      height := swapChainExtent.height, layers := 1 })

/-! ### drawFrame control flow (main.cpp lines 2303-2359) -/

/-- Observable actions of one `drawFrame` invocation. `recreate` stands for the
call to `recreateSwapChain` (main.cpp lines 2362-2386), which rebuilds the swap
chain, image views, render pass, pipeline, framebuffers, and command buffers;
`fatal` stands for a thrown `std::runtime_error`. -/
inductive FrameAction where
  | recreate
  | submit
  | present
  | fatal
deriving DecidableEq, Repr

/-- `BasicApp::drawFrame` (main.cpp lines 2303-2359) as a trace of observable
actions, parameterised by the results of `vkAcquireNextImageKHR`, `vkQueueSubmit`
and `vkQueuePresentKHR`: `VK_ERROR_OUT_OF_DATE_KHR` from acquisition recreates
and returns; any other acquisition failure except `VK_SUBOPTIMAL_KHR` throws;
then the frame is submitted and presented, with the present result rechecked. -/
def drawFrame (acquireResult submitResult presentResult : Int) : List FrameAction :=
  if acquireResult = VK_ERROR_OUT_OF_DATE_KHR then [FrameAction.recreate]
  else if acquireResult ≠ VK_SUCCESS ∧ acquireResult ≠ VK_SUBOPTIMAL_KHR then [FrameAction.fatal]
  else if submitResult ≠ VK_SUCCESS then [FrameAction.submit, FrameAction.fatal]
  else
    FrameAction.submit :: FrameAction.present ::
      (if presentResult = VK_ERROR_OUT_OF_DATE_KHR ∨ presentResult = VK_SUBOPTIMAL_KHR then
        [FrameAction.recreate]
      else if presentResult ≠ VK_SUCCESS then [FrameAction.fatal]
      else [])

/-! ### Window resize callback (main.cpp lines 138-151) -/

/-- Rendering object graph, abstracted to the observable swap-chain generation
bumped by every `recreateSwapChain` call. -/
structure AppState where
  swapChainGeneration : Nat
deriving DecidableEq, Repr

/-- `BasicApp::recreateSwapChain` rebuilds the whole presentation stack; observably
the swap-chain generation advances. -/
def recreateSwapChain (app : AppState) : AppState :=
  { swapChainGeneration := app.swapChainGeneration + 1 }

/-- `BasicApp::resize` (main.cpp lines 138-151): a zero width or height returns
immediately; otherwise the swap chain is recreated. -/
def resizeCallback (width height : Int) (app : AppState) : AppState :=
  if width = 0 ∨ height = 0 then app else recreateSwapChain app

/-! ### Theorems -/

/-- Claim C7: for every `vk::Deleter`, calling release (`cleanup`) twice is
equivalent to calling it once, the destruction function is invoked at most once
per call (the destruction log grows by at most one entry), releasing an unbound
(null) handle is a no-op, and after any release the wrapper is unbound. -/
theorem cleanup_release_idempotent (s : DeleterState) :
    cleanup (cleanup s) = cleanup s ∧
    cleanup { mObject := 0, destroyed := s.destroyed } = { mObject := 0, destroyed := s.destroyed } ∧
    (cleanup s).mObject = 0 ∧
    (cleanup s).destroyed.length ≤ s.destroyed.length + 1 := by
  unfold cleanup
  split <;> simp

/-- Claim C10: a resize event reporting zero width or zero height returns
immediately without recreating the swap chain; the rendering object graph is
unchanged. -/
theorem resizeCallback_zero_is_noop (width height : Int) (app : AppState)
    (h : width = 0 ∨ height = 0) :
    resizeCallback width height app = app := by
  unfold resizeCallback
  rw [if_pos h]

/-- Witness for `resizeCallback_zero_is_noop` at width 0, height 600. -/
theorem resizeCallback_zero_is_noop_witness :
    resizeCallback 0 600 { swapChainGeneration := 5 } = { swapChainGeneration := 5 } :=
  resizeCallback_zero_is_noop 0 600 { swapChainGeneration := 5 } (Or.inl rfl)

/-- Claim C5: the requested swap-chain image count is `minImageCount + 1`,
clamped down to `maxImageCount` when that bound is nonzero (zero meaning
unbounded); in particular (2, 0) yields 3 and (3, 3) yields 3. -/
theorem requestedImageCount_spec (minImageCount maxImageCount : Nat) :
    requestedImageCount minImageCount maxImageCount =
      (if maxImageCount = 0 then minImageCount + 1 else Nat.min (minImageCount + 1) maxImageCount) ∧
    requestedImageCount 2 0 = 3 ∧
    requestedImageCount 3 3 = 3 := by
  refine ⟨?_, by decide, by decide⟩
  unfold requestedImageCount
  simp only [Nat.min_def]
  split <;> split <;> (try split) <;> omega

/-- Claim C6: when `currentExtent.width` is the `UINT32_MAX` sentinel,
`chooseSwapExtent` returns the window size (800 x 600) clamped componentwise
into `[minImageExtent, maxImageExtent]` (so, for a well-formed range, the result
lies inside the bounds); otherwise it returns `currentExtent` unchanged. -/
theorem chooseSwapExtent_spec (capabilities : VkSurfaceCapabilitiesKHR) :
    (capabilities.currentExtent.width = UINT32_MAX →
      chooseSwapExtent capabilities =
        { width := Nat.max capabilities.minImageExtent.width
            (Nat.min capabilities.maxImageExtent.width 800),
          height := Nat.max capabilities.minImageExtent.height
            (Nat.min capabilities.maxImageExtent.height 600) } ∧
      (capabilities.minImageExtent.width ≤ capabilities.maxImageExtent.width →
        capabilities.minImageExtent.width ≤ (chooseSwapExtent capabilities).width ∧
        (chooseSwapExtent capabilities).width ≤ capabilities.maxImageExtent.width) ∧
      (capabilities.minImageExtent.height ≤ capabilities.maxImageExtent.height →
        capabilities.minImageExtent.height ≤ (chooseSwapExtent capabilities).height ∧
        (chooseSwapExtent capabilities).height ≤ capabilities.maxImageExtent.height)) ∧
    (capabilities.currentExtent.width ≠ UINT32_MAX →
      chooseSwapExtent capabilities = capabilities.currentExtent) := by
  constructor
  · intro h
    have hval : chooseSwapExtent capabilities =
        { width := Nat.max capabilities.minImageExtent.width
            (Nat.min capabilities.maxImageExtent.width 800),
          height := Nat.max capabilities.minImageExtent.height
            (Nat.min capabilities.maxImageExtent.height 600) } := by
      unfold chooseSwapExtent
      rw [if_neg (by simp [h])]
      rfl
    refine ⟨hval, ?_, ?_⟩ <;> intro hb <;> rw [hval] <;>
      exact ⟨Nat.le_max_left _ _, Nat.max_le.mpr ⟨hb, Nat.min_le_left _ _⟩⟩
  · intro h
    unfold chooseSwapExtent
    rw [if_pos h]

/-- Witness for `chooseSwapExtent_spec`: a capability report with the sentinel
current extent and range [100, 1000] in both dimensions yields 800 x 600. -/
theorem chooseSwapExtent_spec_witness :
    chooseSwapExtent
      { minImageCount := 2, maxImageCount := 0,
        currentExtent := { width := 4294967295, height := 600 },
        minImageExtent := { width := 100, height := 100 },
        maxImageExtent := { width := 1000, height := 1000 } } =
      { width := 800, height := 600 } := by
  have h := (chooseSwapExtent_spec
    { minImageCount := 2, maxImageCount := 0,
      currentExtent := { width := 4294967295, height := 600 },
      minImageExtent := { width := 100, height := 100 },
      maxImageExtent := { width := 1000, height := 1000 } }).1 rfl
  exact h.1.trans (by decide)

/-- Claim C9: the image-view sequence and the framebuffer sequence each have
exactly the swap-chain image sequence's length, view `i` is created from image
`i`, and framebuffer `i` is bound to view `i`. -/
theorem swapchain_view_framebuffer_correspondence (swapChainImages : List Nat)
    (swapChainImageFormat renderPass : Nat) (swapChainExtent : VkExtent2D) :
    (createImageViews swapChainImages swapChainImageFormat).length = swapChainImages.length ∧
    (createFramebuffers (createImageViews swapChainImages swapChainImageFormat) renderPass
        swapChainExtent).length = swapChainImages.length ∧
    (∀ i : Nat, (createImageViews swapChainImages swapChainImageFormat)[i]? =
        (swapChainImages[i]?).map (fun img => createImageView img swapChainImageFormat)) ∧
    (∀ i : Nat, (createFramebuffers (createImageViews swapChainImages swapChainImageFormat)
        renderPass swapChainExtent)[i]? =
        ((createImageViews swapChainImages swapChainImageFormat)[i]?).map (fun v =>
          { renderPass := renderPass, attachment := v, width := swapChainExtent.width,
            height := swapChainExtent.height, layers := 1 })) := by
  refine ⟨?_, ?_, ?_, ?_⟩ <;>
    simp [createImageViews, createFramebuffers, List.getElem?_map]

/-- Claim C4: if the format list has exactly one entry whose format is the
`VK_FORMAT_UNDEFINED` sentinel, `chooseSwapSurfaceFormat` returns the fixed
BGRA/sRGB pair; otherwise, if the BGRA/sRGB pair occurs anywhere in the list,
that pair is returned; otherwise the first list entry is returned. -/
theorem chooseSwapSurfaceFormat_spec (availableFormats : List VkSurfaceFormatKHR)
    (h : availableFormats ≠ []) :
    (availableFormats.length = 1 → availableFormats.headI.format = VK_FORMAT_UNDEFINED →
      chooseSwapSurfaceFormat availableFormats = preferredSurfaceFormat) ∧
    (¬(availableFormats.length = 1 ∧ availableFormats.headI.format = VK_FORMAT_UNDEFINED) →
      preferredSurfaceFormat ∈ availableFormats →
      chooseSwapSurfaceFormat availableFormats = preferredSurfaceFormat) ∧
    (¬(availableFormats.length = 1 ∧ availableFormats.headI.format = VK_FORMAT_UNDEFINED) →
      preferredSurfaceFormat ∉ availableFormats →
      chooseSwapSurfaceFormat availableFormats = availableFormats.headI) := by
  refine ⟨?_, ?_, ?_⟩
  · intro h1 h2
    unfold chooseSwapSurfaceFormat
    rw [if_pos ⟨h1, h2⟩]
    rfl
  · intro hne hmem
    unfold chooseSwapSurfaceFormat
    rw [if_neg hne]
    cases hfind : availableFormats.find? (fun f =>
        f.format == VK_FORMAT_B8G8R8A8_UNORM && f.colorSpace == VK_COLOR_SPACE_SRGB_NONLINEAR_KHR) with
    | none =>
        exact absurd (by decide) ((List.find?_eq_none.mp hfind) _ hmem)
    | some f =>
        have hp := List.find?_some hfind
        have hf : f = preferredSurfaceFormat := by
          obtain ⟨h1, h2⟩ : f.format = VK_FORMAT_B8G8R8A8_UNORM ∧
              f.colorSpace = VK_COLOR_SPACE_SRGB_NONLINEAR_KHR := by simpa using hp
          cases f
          simp_all [preferredSurfaceFormat]
        exact hf
  · intro hne hnot
    unfold chooseSwapSurfaceFormat
    rw [if_neg hne]
    have hfind : availableFormats.find? (fun f =>
        f.format == VK_FORMAT_B8G8R8A8_UNORM && f.colorSpace == VK_COLOR_SPACE_SRGB_NONLINEAR_KHR)
        = none := by
      apply List.find?_eq_none.mpr
      intro x hx hpx
      obtain ⟨h1, h2⟩ : x.format = VK_FORMAT_B8G8R8A8_UNORM ∧
          x.colorSpace = VK_COLOR_SPACE_SRGB_NONLINEAR_KHR := by simpa using hpx
      apply hnot
      have hxeq : x = preferredSurfaceFormat := by
        cases x
        simp_all [preferredSurfaceFormat]
      exact hxeq ▸ hx
    rw [hfind]

/-- Witness for `chooseSwapSurfaceFormat_spec`: a two-entry list holding the
BGRA/sRGB pair yields the BGRA/sRGB pair. -/
theorem chooseSwapSurfaceFormat_spec_witness :
    chooseSwapSurfaceFormat
      [{ format := 44, colorSpace := 0 }, { format := 1, colorSpace := 2 }] =
      { format := 44, colorSpace := 0 } :=
  (chooseSwapSurfaceFormat_spec
    [{ format := 44, colorSpace := 0 }, { format := 1, colorSpace := 2 }]
    (by decide)).2.1 (by decide) (by decide)

/-- Claim C8: `chooseSwapPresentMode` returns `VK_PRESENT_MODE_MAILBOX_KHR`
whenever it occurs in the list and `VK_PRESENT_MODE_FIFO_KHR` otherwise; in
particular `[FIFO]` yields FIFO and `[FIFO, MAILBOX]` yields MAILBOX. -/
theorem chooseSwapPresentMode_spec (availablePresentModes : List Nat)
    (h : availablePresentModes ≠ []) :
    (VK_PRESENT_MODE_MAILBOX_KHR ∈ availablePresentModes →
      chooseSwapPresentMode availablePresentModes = VK_PRESENT_MODE_MAILBOX_KHR) ∧
    (VK_PRESENT_MODE_MAILBOX_KHR ∉ availablePresentModes →
      chooseSwapPresentMode availablePresentModes = VK_PRESENT_MODE_FIFO_KHR) ∧
    chooseSwapPresentMode [VK_PRESENT_MODE_FIFO_KHR] = VK_PRESENT_MODE_FIFO_KHR ∧
    chooseSwapPresentMode [VK_PRESENT_MODE_FIFO_KHR, VK_PRESENT_MODE_MAILBOX_KHR] =
      VK_PRESENT_MODE_MAILBOX_KHR := by
  refine ⟨?_, ?_, by decide, by decide⟩
  · intro hmem
    unfold chooseSwapPresentMode
    cases hfind : availablePresentModes.find? (fun m => m == VK_PRESENT_MODE_MAILBOX_KHR) with
    | none =>
        exact absurd (by decide) ((List.find?_eq_none.mp hfind) _ hmem)
    | some m =>
        have hp := List.find?_some hfind
        have hm : m = VK_PRESENT_MODE_MAILBOX_KHR := by simpa using hp
        exact hm
  · intro hmem
    unfold chooseSwapPresentMode
    have hfind : availablePresentModes.find? (fun m => m == VK_PRESENT_MODE_MAILBOX_KHR)
        = none := by
      apply List.find?_eq_none.mpr
      intro x hx hpx
      have hxeq : x = VK_PRESENT_MODE_MAILBOX_KHR := by simpa using hpx
      exact hmem (hxeq ▸ hx)
    rw [hfind]

/-- Witness for `chooseSwapPresentMode_spec`: the list `[2, 1]`
(`[FIFO, MAILBOX]`) yields `1` (MAILBOX). -/
theorem chooseSwapPresentMode_spec_witness :
    chooseSwapPresentMode [2, 1] = 1 :=
  (chooseSwapPresentMode_spec [2, 1] (by decide)).1 (by decide)

/-- Claim C1 counterexample: when acquisition reports `VK_ERROR_SURFACE_LOST_KHR`,
`drawFrame` throws a fatal error and performs no rebuild, contradicting the claim
that a "surface lost" acquisition status triggers a full rebuild. -/
theorem drawFrame_surface_lost_counterexample :
    drawFrame VK_ERROR_SURFACE_LOST_KHR VK_SUCCESS VK_SUCCESS = [FrameAction.fatal] ∧
    FrameAction.recreate ∉ drawFrame VK_ERROR_SURFACE_LOST_KHR VK_SUCCESS VK_SUCCESS := by
  decide

/-- Claim C1 (amended): an "outdated" acquisition status triggers a full rebuild
(`recreateSwapChain`) and the frame is neither submitted nor presented; a
"surface lost" acquisition status throws a fatal error without rebuilding,
submitting, or presenting; a "suboptimal" acquisition status is tolerated and
the frame is submitted and presented anyway. -/
theorem drawFrame_acquire_status_handling (submitResult presentResult : Int) :
    (drawFrame VK_ERROR_OUT_OF_DATE_KHR submitResult presentResult = [FrameAction.recreate] ∧
      FrameAction.submit ∉ drawFrame VK_ERROR_OUT_OF_DATE_KHR submitResult presentResult ∧
      FrameAction.present ∉ drawFrame VK_ERROR_OUT_OF_DATE_KHR submitResult presentResult) ∧
    (drawFrame VK_ERROR_SURFACE_LOST_KHR submitResult presentResult = [FrameAction.fatal] ∧
      FrameAction.recreate ∉ drawFrame VK_ERROR_SURFACE_LOST_KHR submitResult presentResult) ∧
    (submitResult = VK_SUCCESS →
      FrameAction.submit ∈ drawFrame VK_SUBOPTIMAL_KHR submitResult presentResult ∧
      FrameAction.present ∈ drawFrame VK_SUBOPTIMAL_KHR submitResult presentResult) := by
  have hout : drawFrame VK_ERROR_OUT_OF_DATE_KHR submitResult presentResult =
      [FrameAction.recreate] := rfl
  have hlost : drawFrame VK_ERROR_SURFACE_LOST_KHR submitResult presentResult =
      [FrameAction.fatal] := rfl
  refine ⟨⟨hout, ?_, ?_⟩, ⟨hlost, ?_⟩, ?_⟩
  · rw [hout]; decide
  · rw [hout]; decide
  · rw [hlost]; decide
  · intro hs
    subst hs
    exact ⟨List.mem_cons_self _ _, List.mem_cons_of_mem _ (List.mem_cons_self _ _)⟩

/-- Witness for `drawFrame_acquire_status_handling`: with all driver calls
succeeding, a suboptimal acquisition still submits and presents. -/
theorem drawFrame_acquire_status_handling_witness :
    FrameAction.submit ∈ drawFrame VK_SUBOPTIMAL_KHR 0 0 ∧
    FrameAction.present ∈ drawFrame VK_SUBOPTIMAL_KHR 0 0 :=
  (drawFrame_acquire_status_handling 0 0).2.2 rfl

/-- Claim C2 counterexample: binding an already-bound `vk::Deleter` (handle 5
bound, new handle 7 created through `operator&`) is not an assertion failure:
it completes normally, implicitly destroying the old handle 5 and storing 7. -/
theorem bindHandle_rebind_counterexample :
    bindHandle { mObject := 5, destroyed := [] } 7 = { mObject := 7, destroyed := [5] } := by
  decide

/-- Claim C2 (amended): binding through `operator&` first runs `cleanup` — the
previously bound handle, if any, has its destruction function invoked and the
wrapper is reset — and only then is the new handle stored; the old handle is
destroyed rather than leaked, but no assertion or fatal error occurs. -/
theorem bindHandle_releases_then_rebinds (s : DeleterState) (newObj : Nat) :
    (bindHandle s newObj).mObject = newObj ∧
    (bindHandle s newObj).destroyed =
      (if s.mObject ≠ 0 then s.destroyed ++ [s.mObject] else s.destroyed) := by
  unfold bindHandle cleanup
  split <;> simp

/-- Claim C3 (code bug): with distinct queue families (graphics = 0,
present = 1), `createLogicalDevice` builds two queue-create entries but both
name the graphics family 0 — main.cpp line 731 assigns
`indices.graphicsFamily` instead of the loop variable — so no entry names the
present family 1, contrary to the documented intent of one queue per distinct
family. -/
theorem createQueueInfos_failing_input :
    createQueueInfos 0 1 =
      [{ queueFamilyIndex := 0, queueCount := 1, queuePriority := 1 },
       { queueFamilyIndex := 0, queueCount := 1, queuePriority := 1 }] := by
  decide

end VulkanBasic
